import Mathlib

/-!
Shallow embedding of the servoshell macOS platform shim
(`src/platform/macos/app.rs` and `build.rs`).

Native Objective-C objects are modelled as `Inst` values carrying a set of
class identities; selectors are modelled as their string names; the delegate's
event queue (a Rust `Vec<AppEvent>` reached through the `event_queue` ivar) is
modelled as a `List AppEvent`, with `Vec::push` appending at the back and
`Vec::drain(..)` removing the whole list front-to-back.
-/

set_option autoImplicit false

namespace Servoshell

/-- Modelled from the spec: the command tags of `app::AppCommand` (the `app`
module is not part of the provided sources); the spec names exactly two
commands, "clear history" and "toggle dark theme". -/
inductive AppCommand where
  | ClearHistory
  | ToggleOptionDarkTheme
  deriving DecidableEq, Repr

/-- Modelled from the spec: the event variants of `app::AppEvent` used by the
delegate (lifecycle events plus `DoCommand` carrying a command tag). -/
inductive AppEvent where
  | DidFinishLaunching
  | DidChangeScreenParameters
  | WillTerminate
  | DoCommand (cmd : AppCommand)
  deriving DecidableEq, Repr

/-- Modelled from the spec: `state::AppState` as constructed in `App::load`
(`current_window_index: None, window_states: Vec::new(), dark_theme: false`);
window-state contents are opaque collaborator data and are left abstract. -/
structure AppState where
  current_window_index : Option Nat
  window_states : List Unit
  dark_theme : Bool
  deriving DecidableEq, Repr

/-- A native object instance produced by loading a nib bundle: an identity
plus the set of class identities it answers to. -/
structure Inst where
  iid : Nat
  classes : List String
  deriving DecidableEq, Repr

/-- Modelled from the spec: `utils::id_is_instance_of` (the `utils` module is
not part of the provided sources) — whether an instance carries the given
class identity. -/
def id_is_instance_of (i : Inst) (c : String) : Bool :=
  i.classes.contains c

/-- `Vec::push` on the delegate's event queue: append at the back. -/
def push (q : List AppEvent) (e : AppEvent) : List AppEvent :=
  q ++ [e]

/-- `App::get_events` (app.rs:129-135): `drain(..).collect()` — returns all
queued events in order and leaves the queue empty.  The pair is
(returned events, queue afterwards). -/
def get_events (q : List AppEvent) : List AppEvent × List AppEvent :=
  (q, [])

/-- `did_finish_launching` delegate trampoline (app.rs:22-24): pushes
`AppEvent::DidFinishLaunching`. -/
def did_finish_launching (q : List AppEvent) : List AppEvent :=
  push q AppEvent.DidFinishLaunching

/-- `did_change_screen_parameter` delegate trampoline (app.rs:26-28). -/
def did_change_screen_parameter (q : List AppEvent) : List AppEvent :=
  push q AppEvent.DidChangeScreenParameters

/-- `will_terminate` delegate trampoline (app.rs:30-32). -/
def will_terminate (q : List AppEvent) : List AppEvent :=
  push q AppEvent.WillTerminate

theorem foldl_push (es : List AppEvent) :
    ∀ q : List AppEvent, es.foldl push q = q ++ es := by
  induction es with
  | nil => intro q; simp
  | cons e rest ih =>
      intro q
      simp [List.foldl, push, ih]

/-- **C1.** Pushing N events onto the (initially empty) delegate queue and
then calling `get_events` yields exactly those N events in FIFO order and
empties the queue, so an immediately subsequent `get_events` returns the
empty sequence; draining the empty queue returns the empty sequence.  The
end-to-end scenario of a `did_finish_launching` notification is included. -/
theorem C1_get_events_fifo_drain (es : List AppEvent) :
    (get_events (es.foldl push [])).1 = es
    ∧ (get_events (get_events (es.foldl push [])).2).1 = []
    ∧ get_events ([] : List AppEvent) = ([], [])
    ∧ (get_events (did_finish_launching [])).1 = [AppEvent.DidFinishLaunching] := by
  refine ⟨?_, ?_, rfl, rfl⟩
  · simp [get_events, foldl_push]
  · simp [get_events]

/-! ### Menu-command handlers (app.rs:34-55)

Selectors are modelled by their names; `sel!(shellClearHistory:)` is the
string "shellClearHistory:".  A trampoline that panics is modelled as
returning `none`. -/

/-- `validate_ui` (app.rs:34-43): the handler reads only the item's action
selector — the delegate's `state` and `event_queue` ivars are in scope via
`_this` but never read.  Returns `YES` for the two recognized selectors and
panics (`none`) otherwise. -/
def validate_ui (_state : AppState) (_queue : List AppEvent) (action : String) :
    Option Bool :=
  if action = "shellClearHistory:" then some true
  else if action = "shellToggleOptionDarkTheme:" then some true
  else none

/-- `record_command` (app.rs:45-55): maps the recognized selector to its
`AppCommand` tag and pushes one `DoCommand` event; an unrecognized selector
panics before anything is pushed (`none` = panic, queue untouched). -/
def record_command (queue : List AppEvent) (action : String) :
    Option (List AppEvent) :=
  if action = "shellClearHistory:" then
    some (push queue (AppEvent.DoCommand AppCommand.ClearHistory))
  else if action = "shellToggleOptionDarkTheme:" then
    some (push queue (AppEvent.DoCommand AppCommand.ToggleOptionDarkTheme))
  else none

/-- **C4.** `validate_ui` returns `YES` (`some true`) for each of the two
recognized command identifiers and panics (returns no value, `none`) for any
other identifier. -/
theorem C4_validate_ui_allowlist (s : AppState) (q : List AppEvent) (a : String) :
    ((a = "shellClearHistory:" ∨ a = "shellToggleOptionDarkTheme:") →
      validate_ui s q a = some true)
    ∧ ((a ≠ "shellClearHistory:" ∧ a ≠ "shellToggleOptionDarkTheme:") →
      validate_ui s q a = none) := by
  constructor
  · rintro (rfl | rfl) <;> simp [validate_ui]
  · rintro ⟨h1, h2⟩
    simp [validate_ui, h1, h2]

/-- Witness for C4 at the concrete selectors "shellClearHistory:" and
"shellUnknownThing:". -/
theorem C4_validate_ui_allowlist_witness :
    validate_ui ⟨none, [], false⟩ [] "shellClearHistory:" = some true
    ∧ validate_ui ⟨none, [], false⟩ [] "shellUnknownThing:" = none :=
  ⟨(C4_validate_ui_allowlist ⟨none, [], false⟩ [] "shellClearHistory:").1 (Or.inl rfl),
   (C4_validate_ui_allowlist ⟨none, [], false⟩ [] "shellUnknownThing:").2
     ⟨by decide, by decide⟩⟩

/-- **C5.** `record_command` maps clear-history to `ClearHistory` and
toggle-dark-theme to `ToggleOptionDarkTheme`, appending exactly one
`DoCommand` event to the queue; an unrecognized identifier panics and no
event is enqueued. -/
theorem C5_record_command (q : List AppEvent) (a : String) :
    (a = "shellClearHistory:" →
      record_command q a = some (q ++ [AppEvent.DoCommand AppCommand.ClearHistory]))
    ∧ (a = "shellToggleOptionDarkTheme:" →
      record_command q a = some (q ++ [AppEvent.DoCommand AppCommand.ToggleOptionDarkTheme]))
    ∧ ((a ≠ "shellClearHistory:" ∧ a ≠ "shellToggleOptionDarkTheme:") →
      record_command q a = none) := by
  refine ⟨?_, ?_, ?_⟩
  · rintro rfl; simp [record_command, push]
  · rintro rfl; simp [record_command, push]
  · rintro ⟨h1, h2⟩
    simp [record_command, h1, h2]

/-- Witness for C5: on the empty queue, the clear-history selector enqueues
exactly one `DoCommand ClearHistory`, and an unrecognized selector enqueues
nothing. -/
theorem C5_record_command_witness :
    record_command [] "shellClearHistory:"
      = some [AppEvent.DoCommand AppCommand.ClearHistory]
    ∧ record_command [] "shellBogus:" = none :=
  ⟨(C5_record_command [] "shellClearHistory:").1 rfl,
   (C5_record_command [] "shellBogus:").2.2 ⟨by decide, by decide⟩⟩

/-- **C10.** `validate_ui` never reads the state block or the event queue:
its result is the same for any two states and queues, and for each recognized
identifier it is unconditionally `YES`. -/
theorem C10_validate_ui_state_independent
    (s s' : AppState) (q q' : List AppEvent) (a : String) :
    validate_ui s q a = validate_ui s' q' a
    ∧ ((a = "shellClearHistory:" ∨ a = "shellToggleOptionDarkTheme:") →
      validate_ui s q a = some true) := by
  constructor
  · rfl
  · rintro (rfl | rfl) <;> simp [validate_ui]

/-- Witness for C10 at two distinct states and queues and a recognized
selector. -/
theorem C10_validate_ui_state_independent_witness :
    validate_ui ⟨none, [], false⟩ [] "shellToggleOptionDarkTheme:"
      = validate_ui ⟨some 3, [], true⟩ [AppEvent.WillTerminate] "shellToggleOptionDarkTheme:"
    ∧ validate_ui ⟨none, [], false⟩ [] "shellToggleOptionDarkTheme:" = some true :=
  ⟨(C10_validate_ui_state_independent ⟨none, [], false⟩ ⟨some 3, [], true⟩
      [] [AppEvent.WillTerminate] "shellToggleOptionDarkTheme:").1,
   (C10_validate_ui_state_independent ⟨none, [], false⟩ ⟨some 3, [], true⟩
      [] [AppEvent.WillTerminate] "shellToggleOptionDarkTheme:").2 (Or.inr rfl)⟩

/-! ### Resource loading and handle lookup (app.rs:78-122, 180-219)

`utils::load_nib` is an external effect; its result (the list of top-level
instances, or a load-failure message) is passed in as an
`Except String (List Inst)` argument. -/

/-- The result of a successful `App::load`: the located `NSApplication`
instance, the freshly allocated event queue, and the initial `AppState`
bound to the delegate. -/
structure LoadedApp where
  nsapp : Inst
  event_queue : List AppEvent
  state : AppState
  deriving DecidableEq, Repr

/-- The `AppState` literal built at the top of `App::load` (app.rs:80-84). -/
def initial_state : AppState :=
  { current_window_index := none, window_states := [], dark_theme := false }

/-- The application-handle lookup in `App::load` (app.rs:91-93):
`instances.into_iter().find(...)` — the first matching instance. -/
def app_lookup (instances : List Inst) : Option Inst :=
  instances.find? (fun i => id_is_instance_of i "NSApplication")

/-- `App::load` (app.rs:78-122): propagates a nib-load failure, fails when no
`NSApplication` instance is found, otherwise allocates a fresh empty event
queue and returns the loaded controller. -/
def load (nib : Except String (List Inst)) : Except String LoadedApp :=
  match nib with
  | Except.error msg => Except.error msg
  | Except.ok instances =>
    match app_lookup instances with
    | none => Except.error "Couldn't not find NSApplication instance in nib file"
    | some nsapp => Except.ok { nsapp := nsapp, event_queue := [], state := initial_state }

/-- The scan loop of `App::create_native_window` (app.rs:195-206): walks the
instances in order and overwrites the window/popover slot on every match. -/
def scan_instances : List Inst → Option Inst × Option Inst → Option Inst × Option Inst
  | [], acc => acc
  | i :: rest, (w, p) =>
    scan_instances rest
      ((if id_is_instance_of i "NSShellWindow" then some i else w),
       (if id_is_instance_of i "NSPopover" then some i else p))

/-- The window slot after the scan, starting from `(None, None)`. -/
def window_scan (instances : List Inst) : Option Inst :=
  (scan_instances instances (none, none)).1

/-- The popover slot after the scan, starting from `(None, None)`. -/
def popover_scan (instances : List Inst) : Option Inst :=
  (scan_instances instances (none, none)).2

/-- `App::create_native_window` (app.rs:189-219): propagates a nib-load
failure, then requires a window and a popover instance, in that order. -/
def create_native_window (nib : Except String (List Inst)) :
    Except String (Inst × Inst) :=
  match nib with
  | Except.error msg => Except.error msg
  | Except.ok instances =>
    match window_scan instances, popover_scan instances with
    | none, _ => Except.error "Couldn't not find NSShellWindow instance in nib file"
    | some _, none => Except.error "Couldn't not find NSPopover instance in nib file"
    | some w, some p => Except.ok (w, p)

/-- The window wrapper returned by `window::Window::new`. -/
structure Window where
  nswindow : Inst
  nspopover : Inst
  deriving DecidableEq, Repr

/-- `App::create_window` (app.rs:180-187): wraps `create_native_window`.
It takes `&self` immutably and touches no global, so the controller state it
runs against is returned unchanged in the second component. -/
def create_window (app : LoadedApp) (nib : Except String (List Inst)) :
    Except String Window × LoadedApp :=
  (match create_native_window nib with
   | Except.error msg => Except.error msg
   | Except.ok (w, p) => Except.ok { nswindow := w, nspopover := p },
   app)

theorem scan_instances_fst (instances : List Inst) :
    ∀ w p : Option Inst,
      (scan_instances instances (w, p)).1
        = ((instances.reverse.find? (fun i => id_is_instance_of i "NSShellWindow")).or w) := by
  induction instances with
  | nil => intro w p; simp [scan_instances]
  | cons i rest ih =>
      intro w p
      simp only [scan_instances, ih, List.reverse_cons, List.find?_append]
      cases h : rest.reverse.find? (fun i => id_is_instance_of i "NSShellWindow") with
      | some x => simp [Option.or]
      | none =>
          simp only [Option.or, List.find?]
          cases hw : id_is_instance_of i "NSShellWindow" <;> simp [hw]

theorem scan_instances_snd (instances : List Inst) :
    ∀ w p : Option Inst,
      (scan_instances instances (w, p)).2
        = ((instances.reverse.find? (fun i => id_is_instance_of i "NSPopover")).or p) := by
  induction instances with
  | nil => intro w p; simp [scan_instances]
  | cons i rest ih =>
      intro w p
      simp only [scan_instances, ih, List.reverse_cons, List.find?_append]
      cases h : rest.reverse.find? (fun i => id_is_instance_of i "NSPopover") with
      | some x => simp [Option.or]
      | none =>
          simp only [Option.or, List.find?]
          cases hp : id_is_instance_of i "NSPopover" <;> simp [hp]

theorem window_scan_eq (instances : List Inst) :
    window_scan instances
      = instances.reverse.find? (fun i => id_is_instance_of i "NSShellWindow") := by
  rw [window_scan, scan_instances_fst]
  cases instances.reverse.find? (fun i => id_is_instance_of i "NSShellWindow") <;> rfl

theorem popover_scan_eq (instances : List Inst) :
    popover_scan instances
      = instances.reverse.find? (fun i => id_is_instance_of i "NSPopover") := by
  rw [popover_scan, scan_instances_snd]
  cases instances.reverse.find? (fun i => id_is_instance_of i "NSPopover") <;> rfl

theorem window_scan_eq_none (instances : List Inst) :
    window_scan instances = none
      ↔ ∀ i ∈ instances, ¬ id_is_instance_of i "NSShellWindow" := by
  rw [window_scan_eq, List.find?_eq_none]
  constructor
  · intro h i hi; exact h i (List.mem_reverse.mpr hi)
  · intro h i hi; exact h i (List.mem_reverse.mp hi)

theorem popover_scan_eq_none (instances : List Inst) :
    popover_scan instances = none
      ↔ ∀ i ∈ instances, ¬ id_is_instance_of i "NSPopover" := by
  rw [popover_scan_eq, List.find?_eq_none]
  constructor
  · intro h i hi; exact h i (List.mem_reverse.mpr hi)
  · intro h i hi; exact h i (List.mem_reverse.mp hi)

/-- **C7.** `load` fails exactly when the nib load fails (propagating its
message) or when no `NSApplication` instance is among the loaded instances;
on success the returned controller carries a freshly allocated empty event
queue. -/
theorem C7_load_error_iff (msg : String) (instances : List Inst) :
    load (Except.error msg) = Except.error msg
    ∧ ((∀ i ∈ instances, ¬ id_is_instance_of i "NSApplication") →
        load (Except.ok instances)
          = Except.error "Couldn't not find NSApplication instance in nib file")
    ∧ ((∃ i ∈ instances, id_is_instance_of i "NSApplication") →
        ∃ a : LoadedApp, load (Except.ok instances) = Except.ok a
          ∧ a.event_queue = [] ∧ a.state = initial_state) := by
  refine ⟨rfl, ?_, ?_⟩
  · intro h
    have hn : app_lookup instances = none := by
      rw [app_lookup, List.find?_eq_none]
      intro x hx
      simpa using h x hx
    simp [load, hn]
  · rintro ⟨i, hi, hinst⟩
    have hs : (app_lookup instances).isSome := by
      rw [app_lookup, List.find?_isSome]
      exact ⟨i, hi, hinst⟩
    obtain ⟨a, ha⟩ := Option.isSome_iff_exists.mp hs
    exact ⟨⟨a, [], initial_state⟩, by simp [load, ha], rfl, rfl⟩

/-- Witness for C7 at a failing nib load, an application-free bundle and a
bundle holding one `NSApplication` instance. -/
theorem C7_load_error_iff_witness :
    load (Except.error "nib gone") = Except.error "nib gone"
    ∧ load (Except.ok [⟨7, ["NSWindow"]⟩])
        = Except.error "Couldn't not find NSApplication instance in nib file"
    ∧ ∃ a : LoadedApp, load (Except.ok [⟨0, ["NSApplication"]⟩]) = Except.ok a
        ∧ a.event_queue = [] ∧ a.state = initial_state :=
  ⟨(C7_load_error_iff "nib gone" []).1,
   (C7_load_error_iff "nib gone" [⟨7, ["NSWindow"]⟩]).2.1 (by decide),
   (C7_load_error_iff "nib gone" [⟨0, ["NSApplication"]⟩]).2.2
     ⟨⟨0, ["NSApplication"]⟩, by simp, by decide⟩⟩

/-- **C6.** `create_window` fails with the window-handle-not-found message
when the bundle holds no `NSShellWindow` instance, and with the
popover-handle-not-found message when a window is present but no `NSPopover`
instance is; in every case (failures included) the controller state it runs
against is returned unchanged. -/
theorem C6_create_window_failures
    (app : LoadedApp) (nib : Except String (List Inst)) (instances : List Inst) :
    (create_window app nib).2 = app
    ∧ ((∀ i ∈ instances, ¬ id_is_instance_of i "NSShellWindow") →
        create_window app (Except.ok instances)
          = (Except.error "Couldn't not find NSShellWindow instance in nib file", app))
    ∧ (((∃ i ∈ instances, id_is_instance_of i "NSShellWindow")
        ∧ (∀ i ∈ instances, ¬ id_is_instance_of i "NSPopover")) →
        create_window app (Except.ok instances)
          = (Except.error "Couldn't not find NSPopover instance in nib file", app)) := by
  refine ⟨rfl, ?_, ?_⟩
  · intro h
    have hw : window_scan instances = none := (window_scan_eq_none instances).mpr h
    simp [create_window, create_native_window, hw]
  · rintro ⟨⟨i, hi, hwin⟩, hp⟩
    have hpn : popover_scan instances = none := (popover_scan_eq_none instances).mpr hp
    have hs : (window_scan instances).isSome := by
      rw [window_scan_eq, List.find?_isSome]
      exact ⟨i, List.mem_reverse.mpr hi, hwin⟩
    obtain ⟨w, hw⟩ := Option.isSome_iff_exists.mp hs
    simp [create_window, create_native_window, hw, hpn]

/-- Witness for C6 at a window-free bundle and at a bundle with a window but
no popover. -/
theorem C6_create_window_failures_witness :
    (create_window ⟨⟨0, ["NSApplication"]⟩, [], initial_state⟩
        (Except.ok [⟨7, ["NSView"]⟩])).2
      = ⟨⟨0, ["NSApplication"]⟩, [], initial_state⟩
    ∧ create_window ⟨⟨0, ["NSApplication"]⟩, [], initial_state⟩
        (Except.ok [⟨7, ["NSView"]⟩])
      = (Except.error "Couldn't not find NSShellWindow instance in nib file",
         ⟨⟨0, ["NSApplication"]⟩, [], initial_state⟩)
    ∧ create_window ⟨⟨0, ["NSApplication"]⟩, [], initial_state⟩
        (Except.ok [⟨1, ["NSShellWindow"]⟩])
      = (Except.error "Couldn't not find NSPopover instance in nib file",
         ⟨⟨0, ["NSApplication"]⟩, [], initial_state⟩) :=
  ⟨(C6_create_window_failures ⟨⟨0, ["NSApplication"]⟩, [], initial_state⟩
      (Except.ok [⟨7, ["NSView"]⟩]) []).1,
   (C6_create_window_failures ⟨⟨0, ["NSApplication"]⟩, [], initial_state⟩
      (Except.ok [⟨7, ["NSView"]⟩]) [⟨7, ["NSView"]⟩]).2.1 (by decide),
   (C6_create_window_failures ⟨⟨0, ["NSApplication"]⟩, [], initial_state⟩
      (Except.ok [⟨1, ["NSShellWindow"]⟩]) [⟨1, ["NSShellWindow"]⟩]).2.2
     ⟨⟨⟨1, ["NSShellWindow"]⟩, by simp, by decide⟩, by decide⟩⟩

/-- **C2, counterexample.** In a bundle with two `NSShellWindow` instances
(identities 1 and 2, in that order) and a popover, `create_native_window`
returns the instance with identity 2 — the last match, not the first as the
claim states for the `create_window` lookups. -/
theorem C2_counterexample :
    create_native_window (Except.ok
        [⟨1, ["NSShellWindow"]⟩, ⟨2, ["NSShellWindow"]⟩, ⟨3, ["NSPopover"]⟩])
      = Except.ok (⟨2, ["NSShellWindow"]⟩, ⟨3, ["NSPopover"]⟩)
    ∧ (⟨2, ["NSShellWindow"]⟩ : Inst) ≠ ⟨1, ["NSShellWindow"]⟩ := by
  constructor
  · rfl
  · decide

/-- **C2, amended.** The application-handle lookup in `load` takes the
*first* instance with the required class identity, while the window and
popover lookups in `create_window` take the *last* such instance. -/
theorem C2_first_vs_last_match (pre mid post : List Inst) (a b : Inst) :
    ((id_is_instance_of a "NSApplication" = true
      ∧ ∀ x ∈ pre, ¬ id_is_instance_of x "NSApplication") →
      app_lookup (pre ++ a :: mid) = some a)
    ∧ ((id_is_instance_of b "NSShellWindow" = true
      ∧ ∀ x ∈ post, ¬ id_is_instance_of x "NSShellWindow") →
      window_scan (mid ++ b :: post) = some b)
    ∧ ((id_is_instance_of b "NSPopover" = true
      ∧ ∀ x ∈ post, ¬ id_is_instance_of x "NSPopover") →
      popover_scan (mid ++ b :: post) = some b) := by
  refine ⟨?_, ?_, ?_⟩
  · rintro ⟨ha, hpre⟩
    have h1 : pre.find? (fun i => id_is_instance_of i "NSApplication") = none := by
      rw [List.find?_eq_none]
      intro x hx; simpa using hpre x hx
    simp [app_lookup, List.find?_append, h1, List.find?, ha]
  · rintro ⟨hb, hpost⟩
    rw [window_scan_eq]
    have h1 : post.reverse.find? (fun i => id_is_instance_of i "NSShellWindow") = none := by
      rw [List.find?_eq_none]
      intro x hx; simpa using hpost x (List.mem_reverse.mp hx)
    simp [List.reverse_append, List.reverse_cons, List.append_assoc,
      List.find?_append, h1, List.find?, hb]
  · rintro ⟨hb, hpost⟩
    rw [popover_scan_eq]
    have h1 : post.reverse.find? (fun i => id_is_instance_of i "NSPopover") = none := by
      rw [List.find?_eq_none]
      intro x hx; simpa using hpost x (List.mem_reverse.mp hx)
    simp [List.reverse_append, List.reverse_cons, List.append_assoc,
      List.find?_append, h1, List.find?, hb]

/-- Witness for amended C2: the application lookup picks the first of two
`NSApplication` instances; the window scan picks the last of two
`NSShellWindow` instances. -/
theorem C2_first_vs_last_match_witness :
    app_lookup [⟨9, []⟩, ⟨0, ["NSApplication"]⟩, ⟨5, ["NSApplication"]⟩]
      = some ⟨0, ["NSApplication"]⟩
    ∧ window_scan [⟨1, ["NSShellWindow"]⟩, ⟨2, ["NSShellWindow"]⟩, ⟨9, []⟩]
      = some ⟨2, ["NSShellWindow"]⟩ :=
  ⟨(C2_first_vs_last_match [⟨9, []⟩] [⟨5, ["NSApplication"]⟩] []
      ⟨0, ["NSApplication"]⟩ ⟨0, ["NSApplication"]⟩).1 ⟨by decide, by decide⟩,
   (C2_first_vs_last_match [] [⟨1, ["NSShellWindow"]⟩] [⟨9, []⟩]
      ⟨0, ["NSApplication"]⟩ ⟨2, ["NSShellWindow"]⟩).2.1 ⟨by decide, by decide⟩⟩

/-! ### The run loop (app.rs:138-178)

An iteration of the outer loop is driven by the first (blocking) fetch and
the list of further events already queued for the non-blocking fetches; the
observable native calls it makes are recorded as a list of `Action`s. -/

/-- A native event as `run` inspects it: its type, its subtype and the
identity of its associated window. -/
structure NSEvent where
  etype : Nat
  subtype : Int
  window : Nat
  deriving DecidableEq, Repr

/-- `NSEventType::NSApplicationDefined` in the cocoa bindings. -/
def NSApplicationDefined : Nat := 15

/-- `NSEventSubtype::NSApplicationActivatedEventType` in the cocoa
bindings. -/
def NSApplicationActivatedEventType : Int := 1

/-- The native calls an iteration of `run` makes, in order. -/
inductive Action where
  | eventLoopRised (window : Nat)
  | sendEvent (e : Option NSEvent)
  | updateWindows
  | callbackCall
  deriving DecidableEq, Repr

/-- Dispatch of the first (blocking) fetch (app.rs:151-160): an
application-defined event with the activated subtype sends `eventLoopRised`
to its window; an application-defined event with another subtype is dropped;
any other event goes to `sendEvent`. -/
def dispatch_first (e : NSEvent) : List Action :=
  if e.etype = NSApplicationDefined then
    if e.subtype = NSApplicationActivatedEventType then
      [Action.eventLoopRised e.window]
    else []
  else [Action.sendEvent (some e)]

/-- The inner drain loop (app.rs:163-171): fetch non-blockingly, call
`sendEvent` on the result — before any nil check — then break when the
result was nil.  With pending events `es` the fetches yield the elements of
`es` in order followed by nil. -/
def drain_pending : List NSEvent → List Action
  | [] => [Action.sendEvent none]
  | e :: rest => Action.sendEvent (some e) :: drain_pending rest

/-- One full iteration of the outer loop: first-event dispatch, pending
drain, `updateWindows`, then the caller's callback (app.rs:142-177). -/
def iter_actions (first : NSEvent) (pending : List NSEvent) : List Action :=
  dispatch_first first ++ drain_pending pending
    ++ [Action.updateWindows, Action.callbackCall]

/-- Whether the outer loop continues or exits after an iteration. -/
inductive LoopControl where
  | next
  | exitLoop
  deriving DecidableEq, Repr

/-- Control flow at the end of an outer-loop iteration: the `loop` body in
`run` has no `break` or `return` on any path, so every iteration continues. -/
def outer_body_control (_first : NSEvent) (_pending : List NSEvent) : LoopControl :=
  LoopControl.next

/-- The trace of `run` across a sequence of iterations, each given by its
blocking first event and its already-queued pending events. -/
def run_trace : List (NSEvent × List NSEvent) → List Action
  | [] => []
  | (f, p) :: rest => iter_actions f p ++ run_trace rest

theorem callback_not_mem_dispatch_first (e : NSEvent) :
    Action.callbackCall ∉ dispatch_first e := by
  rw [dispatch_first]
  split
  · split <;> simp
  · simp

theorem callback_not_mem_drain_pending (es : List NSEvent) :
    Action.callbackCall ∉ drain_pending es := by
  induction es with
  | nil => simp [drain_pending]
  | cons e rest ih => simp [drain_pending, ih]

theorem count_callback_iter (f : NSEvent) (p : List NSEvent) :
    (iter_actions f p).count Action.callbackCall = 1 := by
  rw [iter_actions, List.count_append, List.count_append]
  rw [List.count_eq_zero.mpr (callback_not_mem_dispatch_first f),
    List.count_eq_zero.mpr (callback_not_mem_drain_pending p)]
  rfl

/-- **C3, counterexample.** With zero additional pending events the inner
drain still makes a dispatch call — `sendEvent` with the nil fetch result —
whereas the claim says the drain forwards exactly the pending events (none
here) and makes no dispatch call for a nil result. -/
theorem C3_counterexample :
    drain_pending [] ≠ ([].map (fun e => Action.sendEvent (some e))) := by
  decide

/-- **C3, amended.** The inner drain forwards each additional already-queued
event to standard dispatch exactly once, in order — and additionally makes
one final `sendEvent` call with the nil fetch result, stopping only after
that call. -/
theorem C3_drain_forwards_pending (es : List NSEvent) :
    drain_pending es
      = es.map (fun e => Action.sendEvent (some e)) ++ [Action.sendEvent none] := by
  induction es with
  | nil => rfl
  | cons e rest ih => simp [drain_pending, ih]

/-- **C9.** `run` invokes the callback exactly once per outer iteration, as
the last action of the iteration (after dispatch, drain and the
display-update pass), the trace of n iterations holds exactly n callback
invocations, and no iteration's body reaches an exit of the loop. -/
theorem C9_run_never_terminates (iters : List (NSEvent × List NSEvent))
    (f : NSEvent) (p : List NSEvent) :
    (run_trace iters).count Action.callbackCall = iters.length
    ∧ (iter_actions f p).count Action.callbackCall = 1
    ∧ (iter_actions f p).getLast? = some Action.callbackCall
    ∧ outer_body_control f p = LoopControl.next := by
  refine ⟨?_, count_callback_iter f p, ?_, rfl⟩
  · induction iters with
    | nil => rfl
    | cons it rest ih =>
        obtain ⟨g, q⟩ := it
        simp only [run_trace, List.count_append, ih, count_callback_iter,
          List.length_cons]
        omega
  · simp [iter_actions, List.getLast?_append]

/-! ### The build step (build.rs)

`main` creates the `nibs` output directory and runs `ibtool` over the two
xib documents.  `Command::status()` returns `Err` only when the child fails
to launch or be waited on; a child that runs and exits — with any exit code —
yields `Ok(ExitStatus)`.  `.ok().expect("ibtool failed")` therefore panics
only in the launch-failure case. -/

/-- How a spawned `ibtool` process behaves: the launch itself fails (an io
error), or the child runs and exits with the given code. -/
inductive SpawnResult where
  | ioError
  | exited (code : Int)
  deriving DecidableEq, Repr

/-- `str::replace("xib", "nib")` on the character list: each leftmost,
non-overlapping occurrence of "xib" becomes "nib". -/
def replace_xib_nib : List Char → List Char
  | 'x' :: 'i' :: 'b' :: rest => 'n' :: 'i' :: 'b' :: replace_xib_nib rest
  | c :: rest => c :: replace_xib_nib rest
  | [] => []

/-- `Path::file_name` for the paths used here: the component after the last
'/' (the running component is reset at every separator). -/
def file_name (s : List Char) : List Char :=
  s.foldl (fun acc c => if c = '/' then [] else acc ++ [c]) []

/-- The output file name computed in `ibtool` (build.rs:18-19):
`file_name(src).replace("xib", "nib")`. -/
def out_file (src : String) : String :=
  String.mk (replace_xib_nib (file_name src.data))

/-- The argv of the `ibtool` invocation (build.rs:20-23):
`ibtool <src> --compile <out_dir>/<out_file>`. -/
def ibtool_args (src : String) (out_dir : String) : List String :=
  ["ibtool", src, "--compile", out_dir ++ "/" ++ out_file src]

/-- The panic behaviour of `fn ibtool` (build.rs:24-26):
`.status().ok().expect("ibtool failed")` — `none` (panic) exactly when the
process could not be launched; an exit status, zero or not, passes. -/
def ibtool_run (spawn : SpawnResult) : Option Unit :=
  match spawn with
  | SpawnResult.ioError => none
  | SpawnResult.exited _ => some ()

/-- `fn main` of build.rs: runs `ibtool` on `macos/xib/App.xib` then
`macos/xib/Window.xib` with output directory `nibs`, aborting (`none`) as
soon as an invocation panics; on completion it has issued the two
invocations returned here. -/
def build_main (behavior : String → SpawnResult) : Option (List (List String)) :=
  match ibtool_run (behavior "macos/xib/App.xib") with
  | none => none
  | some _ =>
    match ibtool_run (behavior "macos/xib/Window.xib") with
    | none => none
    | some _ =>
      some [ibtool_args "macos/xib/App.xib" "nibs",
            ibtool_args "macos/xib/Window.xib" "nibs"]

/-- **C8.** The build invokes `ibtool` on the two named documents with the
compiled artifacts placed in the output directory, but a tool failure is
*not* always fatal: when `ibtool` launches and exits with nonzero status
(here exit code 1) the `.ok().expect` chain passes and the build completes
both invocations; only a launch failure (io error) panics. -/
theorem C8_tool_failure_not_fatal :
    ibtool_run (SpawnResult.exited 1) = some ()
    ∧ build_main (fun _ => SpawnResult.exited 1)
      = some [["ibtool", "macos/xib/App.xib", "--compile", "nibs/App.nib"],
              ["ibtool", "macos/xib/Window.xib", "--compile", "nibs/Window.nib"]]
    ∧ ibtool_run SpawnResult.ioError = none
    ∧ build_main (fun _ => SpawnResult.ioError) = none := by
  refine ⟨rfl, by decide, rfl, rfl⟩

end Servoshell
